import Mathlib

/-!
Shallow embedding of the change-point analysis pipeline of this repository
(`src/bayesian_change_point.py` and `src/time_series_analysis.py`), together
with theorems settling the specification claims about it.

Conventions of the embedding:
* calendar dates are day numbers in `ℤ`;
* Python floats that only flow through comparisons are embedded as `ℚ`;
* floats that enter `sqrt`/`log` arithmetic are embedded as `ℝ`;
* fallible Python code (code that may raise) is embedded as `Except String`;
* `None`-able Python values are embedded as `Option`;
* Python's stable sorts (`list.sort(key=...)`, `DataFrame.sort_values`) are
  embedded as the stable insertion sort `sortByKey` below;
* external library calls with no algorithmic content in the repository
  (pandas date/number parsing, the `ruptures` predictors, the `statsmodels`
  test statistics, the posterior sample summaries) are parameters of the
  embedded functions, so the theorems quantify over their outcomes.
-/

namespace BrentOil

/-- Stable insertion step: `x` is placed before the first element whose key is
not smaller, so elements with equal keys keep their relative order.  This is
the model of one step of Python's stable sort. -/
def insertByKey {α β : Type} [LinearOrder β] (key : α → β) (x : α) : List α → List α
  | [] => [x]
  | y :: ys => if key y < key x then y :: insertByKey key x ys else x :: y :: ys

/-- Stable sort by a key, modelling Python's `list.sort(key=...)` (Timsort is
stable) and pandas `sort_values`. -/
def sortByKey {α β : Type} [LinearOrder β] (key : α → β) : List α → List α
  | [] => []
  | x :: xs => insertByKey key x (sortByKey key xs)

/-! ### `build_bayesian_change_point_model` (src/bayesian_change_point.py, lines 96-143)

The PyMC model built by the source is embedded as a static description of the
random variables it declares.  `pymcAvailable` models the `PYMCMC_AVAILABLE`
flag; `n` is `len(self.log_returns)`. -/

/-- Lower bound of a `pm.DiscreteUniform` change-point prior: either the
constant `50` (for `cp_0`) or the symbolic `cp_{i-1} + offset` (for later
change points). -/
inductive CpLowerBound : Type
  | const (k : ℕ)
  | prevPlus (offset : ℕ)
deriving DecidableEq

/-- One `pm.DiscreteUniform(f'cp_i', lower, upper)` declaration. -/
structure CpPrior : Type where
  lower : CpLowerBound
  upper : ℕ
deriving DecidableEq

/-- One `pm.Normal(f'mu_i', mu, sigma)` prior declaration. -/
structure NormalPrior : Type where
  mu : ℚ
  sigma : ℚ
deriving DecidableEq

/-- One `pm.HalfNormal(f'sigma_i', sigma)` prior declaration. -/
structure HalfNormalPrior : Type where
  sigma : ℚ
deriving DecidableEq

/-- The observation likelihood `pm.Normal('likelihood', mu=mu_priors[muIndex],
sigma=sigma_priors[sigmaIndex], observed=y)`: one Normal whose two scalar
parameters are broadcast over every observed log-return. -/
structure LikelihoodSpec : Type where
  muIndex : ℕ
  sigmaIndex : ℕ
deriving DecidableEq

/-- The set of random variables declared by the PyMC model. -/
structure ModelSpec : Type where
  changePointPriors : List CpPrior
  muPriors : List NormalPrior
  sigmaPriors : List HalfNormalPrior
  likelihood : LikelihoodSpec
deriving DecidableEq

/-- Embedding of `build_bayesian_change_point_model` (lines 96-143).  `n` is the
length of the log-return series.  The only raise in the source is the
`ImportError` when PyMC is unavailable; there is no validation of `n`.
`int(0.8*n)` and `int(0.9*n)` become the floor divisions `8*n/10`, `9*n/10`. -/
def build_bayesian_change_point_model (pymcAvailable : Bool) (n : ℕ)
    (n_change_points : ℕ) : Except String ModelSpec :=
  if pymcAvailable then
    Except.ok
      { changePointPriors :=
          (List.range n_change_points).map fun i =>
            if i = 0 then { lower := CpLowerBound.const 50, upper := 8 * n / 10 }
            else { lower := CpLowerBound.prevPlus 50, upper := 9 * n / 10 },
        muPriors := (List.range (n_change_points + 1)).map fun _ => { mu := 0, sigma := 1/10 },
        sigmaPriors := (List.range (n_change_points + 1)).map fun _ => { sigma := 1/10 },
        likelihood := { muIndex := 0, sigmaIndex := 0 } }
  else Except.error "PyMC3 is required for Bayesian change point analysis"

/-! ### `quantify_regime_impacts` (src/bayesian_change_point.py, lines 253-319)

The posterior sample summaries `np.mean`/`np.std` of the `mu_i`/`sigma_i`
draws are external numerics; they enter as the functions `muMean`, `muStd`,
`sigmaMean`, `sigmaStd` from the regime number.  Dates are day numbers in `ℤ`;
`(end_date - start_date).days` becomes integer subtraction.  The loop runs
over `range(len(mu_samples))`; the model built above declares `K + 1` `mu_i`
variables for `K` change points, so the range is `cps.length + 1`. -/

/-- One entry of the `regime_analysis` list (lines 297-307). -/
structure Regime : Type where
  regime : ℕ
  start_date : ℤ
  end_date : ℤ
  duration_days : ℤ
  mu_mean : ℝ
  mu_std : ℝ
  sigma_mean : ℝ
  sigma_std : ℝ
  annualized_volatility : ℝ

/-- Default `Regime`, used only as the out-of-range default of `List.getD` in
theorem statements. -/
noncomputable def defaultRegime : Regime :=
  { regime := 0, start_date := 0, end_date := 0, duration_days := 0,
    mu_mean := 0, mu_std := 0, sigma_mean := 0, sigma_std := 0,
    annualized_volatility := 0 * Real.sqrt 252 * 100 }

/-- Embedding of `quantify_regime_impacts` (lines 253-319).  `cps` is the list
of `mean_date`s of `self.change_points` (sorted by `identify_change_points`),
`firstDate`/`lastDate` are `self.log_returns.index[0]` and
`self.log_returns.index[-1]`. -/
noncomputable def quantify_regime_impacts (muMean muStd sigmaMean sigmaStd : ℕ → ℝ)
    (firstDate lastDate : ℤ) (cps : List ℤ) : List Regime :=
  (List.range (cps.length + 1)).map fun i =>
    let start_date : ℤ :=
      if i = 0 then firstDate
      else if i < cps.length then cps.getD (i - 1) 0
      else cps.getLastD 0
    let end_date : ℤ :=
      if i = 0 then (if cps = [] then lastDate else cps.getD 0 0)
      else if i < cps.length then cps.getD i 0
      else lastDate
    { regime := i,
      start_date := start_date,
      end_date := end_date,
      duration_days := end_date - start_date,
      mu_mean := muMean i,
      mu_std := muStd i,
      sigma_mean := sigmaMean i,
      sigma_std := sigmaStd i,
      annualized_volatility := sigmaMean i * Real.sqrt 252 * 100 }

/-! ### `associate_with_events` (src/bayesian_change_point.py, lines 321-375) -/

/-- One row of the events catalog (`self.events_df`). -/
structure OilEvent : Type where
  date : ℤ
  event_category : String
  event_description : String
  impact_direction : String
  impact_magnitude : String
  confidence_level : String
deriving DecidableEq

/-- The fields of a change point consumed by `associate_with_events`. -/
structure ChangePointSummary : Type where
  mean_index : ℕ
  mean_date : ℤ
deriving DecidableEq

/-- One entry of an association's `associated_events` list (lines 345-353). -/
structure AssociatedEvent : Type where
  event_date : ℤ
  days_from_cp : ℕ
  event_category : String
  event_description : String
  impact_direction : String
  impact_magnitude : String
  confidence_level : String
deriving DecidableEq

/-- One entry of the `associations` list (lines 358-362). -/
structure Association : Type where
  change_point_date : ℤ
  change_point_index : ℕ
  associated_events : List AssociatedEvent
deriving DecidableEq

/-- The record appended for an in-window event (lines 345-353);
`days_diff = abs((cp_date - event_date).days)`. -/
def toAssociatedEvent (cp_date : ℤ) (e : OilEvent) : AssociatedEvent :=
  { event_date := e.date,
    days_from_cp := (cp_date - e.date).natAbs,
    event_category := e.event_category,
    event_description := e.event_description,
    impact_direction := e.impact_direction,
    impact_magnitude := e.impact_magnitude,
    confidence_level := e.confidence_level }

/-- The `associated_events` list built for one change point (lines 338-356):
keep the events with `days_diff <= window_days`, then
`associated_events.sort(key=lambda x: x['days_from_cp'])` (a stable sort). -/
def associatedEventsFor (window_days : ℕ) (cp_date : ℤ) (events : List OilEvent) :
    List AssociatedEvent :=
  sortByKey (fun a => a.days_from_cp)
    ((events.filter fun e => (cp_date - e.date).natAbs ≤ window_days).map
      (toAssociatedEvent cp_date))

/-- Embedding of `associate_with_events` (lines 321-375).  The source returns
`None` when `self.change_points is None or self.events_df is None`. -/
def associate_with_events (change_points : Option (List ChangePointSummary))
    (events_df : Option (List OilEvent)) (window_days : ℕ) :
    Option (List Association) :=
  match change_points, events_df with
  | some cps, some events =>
      some (cps.map fun cp =>
        { change_point_date := cp.mean_date,
          change_point_index := cp.mean_index,
          associated_events := associatedEventsFor window_days cp.mean_date events })
  | _, _ => none

/-! ### `preprocess_data` (src/time_series_analysis.py, lines 56-103; the same
steps appear in `load_and_preprocess_data`, src/bayesian_change_point.py,
lines 54-94)

The date and price parsers (`parse_date` built on `pd.to_datetime`, and
`pd.to_numeric(errors='coerce')`) are pandas calls; they enter as the
parameters `parseDate` and `parsePrice`, returning `none` exactly when the
source produces `NaT`/`NaN` for the cell.  A raw CSV row is a
(date-string, price-string) pair. -/

/-- Embedding of `preprocess_data`: parse dates, drop rows with invalid dates,
sort by date, parse prices, drop rows with missing prices. -/
def preprocess_data (parseDate : String → Option ℤ) (parsePrice : String → Option ℚ)
    (rows : List (String × String)) : List (ℤ × ℚ) :=
  let dated := rows.filterMap fun r => (parseDate r.1).map fun d => (d, r.2)
  let sorted := sortByKey (fun x => x.1) dated
  sorted.filterMap fun x => (parsePrice x.2).map fun p => (x.1, p)

/-- Embedding of the log-return derivation
`np.log(df['Price'] / df['Price'].shift(1)).dropna()`
(src/time_series_analysis.py line 98; src/bayesian_change_point.py line 81).
For a series of positive prices the shifted division is `NaN` exactly at the
first position, so `dropna` removes exactly the first observation and entry
`i` of the result is `ln(price[i+1] / price[i])`. -/
noncomputable def logReturnsOf : List ℝ → List ℝ
  | [] => []
  | [_] => []
  | a :: b :: rest => Real.log (b / a) :: logReturnsOf (b :: rest)

/-! ### `change_point_analysis` (src/time_series_analysis.py, lines 254-343)

The two `ruptures` models are fitted and asked for break points; the library
calls `model_pelt.predict(pen=10)` and `model_binseg.predict(n_bkps=10)` are
external and enter as the predictor parameters.  (Per the `ruptures` contract
the repository relies on — see the source comments `# Exclude last point (end
of series)` at lines 279 and 287 — a predictor's output is an ascending list
of segment-end positions whose last element is the end of the series.)
`rupturesAvailable` models the `ImportError` branch, in which the function
returns `None, None`. -/

/-- Embedding of `change_point_analysis`: the value handed back to callers
(line 310) is the raw pair of predictor outputs. -/
def change_point_analysis (rupturesAvailable : Bool)
    (peltPredict binsegPredict : List ℝ → List ℕ) (log_returns : List ℝ) :
    Option (List ℕ × List ℕ) :=
  if rupturesAvailable then
    some (peltPredict log_returns, binsegPredict log_returns)
  else none

/-- The break list used by the plotting and printing loops
(`change_points_pelt[:-1]`, lines 279, 287, 301, 306). -/
def plottedChangePoints (cps : List ℕ) : List ℕ := cps.dropLast

/-! ### `test_stationarity` (src/time_series_analysis.py, lines 128-165)

The two statsmodels calls are external numerics; their outcomes enter as
`Except`-valued parameters (`Except.error` when the call raises, e.g.
`adfuller` on a constant series).  The source calls `adfuller` outside any
`try` (line 135), and wraps only the KPSS part in `try/except`
(lines 149-163). -/

/-- The tuple fields of `adfuller(...)` used by the source. -/
structure AdfOutcome : Type where
  statistic : ℚ
  pvalue : ℚ
deriving DecidableEq

/-- The tuple fields of `kpss(...)` used by the source. -/
structure KpssOutcome : Type where
  statistic : ℚ
  pvalue : ℚ
deriving DecidableEq

/-- What `test_stationarity` reports: the ADF statistic and conclusion at the
5% level, and the KPSS part, `none` when the KPSS computation failed
(the `except` branch prints "KPSS test could not be performed"). -/
structure StationarityReport : Type where
  adf_statistic : ℚ
  adf_pvalue : ℚ
  adf_stationary : Bool
  kpss_result : Option (ℚ × ℚ × Bool)
deriving DecidableEq

/-- Embedding of `test_stationarity` (lines 128-165).  An exception from the
unguarded `adfuller` call propagates; an exception from `kpss` is caught. -/
def test_stationarity (adfOutcome : Except String AdfOutcome)
    (kpssOutcome : Except String KpssOutcome) : Except String StationarityReport :=
  match adfOutcome with
  | Except.error e => Except.error e
  | Except.ok a =>
      Except.ok
        { adf_statistic := a.statistic,
          adf_pvalue := a.pvalue,
          adf_stationary := decide (a.pvalue ≤ 5/100),
          kpss_result :=
            match kpssOutcome with
            | Except.ok k => some (k.statistic, k.pvalue, decide (5/100 ≤ k.pvalue))
            | Except.error _ => none }

/-! ### Sample events used in concrete instantiations -/

/-- A sample event exactly `window_days = 30` before the change point date 0. -/
def eventAtMinusWindow : OilEvent :=
  { date := -30, event_category := "OPEC", event_description := "cut",
    impact_direction := "Positive", impact_magnitude := "High",
    confidence_level := "High" }

/-- A sample event exactly `window_days = 30` after the change point date 0. -/
def eventAtPlusWindow : OilEvent :=
  { date := 30, event_category := "Conflict", event_description := "war",
    impact_direction := "Negative", impact_magnitude := "High",
    confidence_level := "Medium" }

/-- A sample event one day beyond the window. -/
def eventBeyondWindow : OilEvent :=
  { date := 31, event_category := "Policy", event_description := "ban",
    impact_direction := "Neutral", impact_magnitude := "Low",
    confidence_level := "Low" }

/-! ### Properties of the stable sort -/

theorem perm_insertByKey {α β : Type} [LinearOrder β] (key : α → β) (x : α) :
    ∀ l : List α, List.Perm (insertByKey key x l) (x :: l)
  | [] => List.Perm.refl _
  | y :: ys => by
    by_cases h : key y < key x
    · rw [insertByKey, if_pos h]
      exact ((perm_insertByKey key x ys).cons y).trans (List.Perm.swap x y ys)
    · rw [insertByKey, if_neg h]

theorem perm_sortByKey {α β : Type} [LinearOrder β] (key : α → β) :
    ∀ l : List α, List.Perm (sortByKey key l) l
  | [] => List.Perm.refl _
  | x :: xs => by
    rw [sortByKey]
    exact (perm_insertByKey key x (sortByKey key xs)).trans
      ((perm_sortByKey key xs).cons x)

theorem mem_insertByKey {α β : Type} [LinearOrder β] {key : α → β} {x a : α} {l : List α} :
    a ∈ insertByKey key x l ↔ a = x ∨ a ∈ l := by
  simpa using (perm_insertByKey key x l).mem_iff

theorem pairwise_insertByKey {α β : Type} [LinearOrder β] {key : α → β} (x : α) {l : List α}
    (h : l.Pairwise (fun a b => key a ≤ key b)) :
    (insertByKey key x l).Pairwise (fun a b => key a ≤ key b) := by
  induction l with
  | nil => simp [insertByKey]
  | cons y ys ih =>
    rcases h with _ | ⟨hy, hys⟩
    by_cases hxy : key y < key x
    · rw [insertByKey, if_pos hxy]
      refine List.Pairwise.cons ?_ (ih hys)
      intro a ha
      rcases mem_insertByKey.1 ha with rfl | ha
      · exact le_of_lt hxy
      · exact hy a ha
    · rw [insertByKey, if_neg hxy]
      refine List.Pairwise.cons ?_ (List.Pairwise.cons hy hys)
      intro a ha
      rcases List.mem_cons.1 ha with rfl | ha
      · exact le_of_not_lt hxy
      · exact le_trans (le_of_not_lt hxy) (hy a ha)

theorem pairwise_sortByKey {α β : Type} [LinearOrder β] (key : α → β) :
    ∀ l : List α, (sortByKey key l).Pairwise (fun a b => key a ≤ key b)
  | [] => by simp [sortByKey]
  | x :: xs => pairwise_insertByKey x (pairwise_sortByKey key xs)

theorem filter_insertByKey {α β : Type} [LinearOrder β] (key : α → β) (x : α) (d : β)
    (l : List α) :
    (insertByKey key x l).filter (fun a => decide (key a = d)) =
      if key x = d then x :: l.filter (fun a => decide (key a = d))
      else l.filter (fun a => decide (key a = d)) := by
  induction l with
  | nil => by_cases h : key x = d <;> simp [insertByKey, List.filter, h]
  | cons y ys ih =>
    rw [insertByKey]
    by_cases hxy : key y < key x
    · rw [if_pos hxy]
      by_cases hx : key x = d
      · have hy : ¬ key y = d := fun hy =>
          absurd hxy (by rw [hy, hx]; exact lt_irrefl d)
        simp [List.filter_cons, hy, ih, hx]
      · simp [List.filter_cons, ih, hx]
    · rw [if_neg hxy]
      by_cases hx : key x = d <;> simp [List.filter_cons, hx]

/-- Stability of the sort: for every key value `d`, the elements whose key is
`d` appear in the sorted list exactly as they appear in the input list. -/
theorem filter_sortByKey {α β : Type} [LinearOrder β] (key : α → β) (d : β) :
    ∀ l : List α, (sortByKey key l).filter (fun a => decide (key a = d)) =
      l.filter (fun a => decide (key a = d))
  | [] => rfl
  | x :: xs => by
    by_cases hx : key x = d <;>
      simp [sortByKey, filter_insertByKey, hx, List.filter_cons, filter_sortByKey key d xs]

/-! ### Helper lemmas -/

theorem getD_map_range {α : Type} (f : ℕ → α) (n i : ℕ) (d : α) (h : i < n) :
    ((List.range n).map f).getD i d = f i := by
  simp [List.getD_eq_getElem?_getD, List.getElem?_map, List.getElem?_range h]

theorem getD_map_range_ge {α : Type} (f : ℕ → α) (n i : ℕ) (d : α) (h : n ≤ i) :
    ((List.range n).map f).getD i d = d := by
  have : ((List.range n).map f).length ≤ i := by simpa using h
  simp [List.getD_eq_getElem?_getD, List.getElem?_eq_none this]

theorem getLastD_eq_getD {l : List ℤ} (d : ℤ) :
    l.getLastD d = l.getD (l.length - 1) d := by
  simp [List.getLastD_eq_getLast?, List.getLast?_eq_getElem?, List.getD_eq_getElem?_getD]

/-- The regime record produced for index `i ≤ cps.length`, unfolded. -/
theorem quantify_regime_impacts_getD (mm ms sm ss : ℕ → ℝ) (fd ld : ℤ) (cps : List ℤ)
    {i : ℕ} (h : i ≤ cps.length) :
    (quantify_regime_impacts mm ms sm ss fd ld cps).getD i defaultRegime =
      { regime := i,
        start_date :=
          if i = 0 then fd
          else if i < cps.length then cps.getD (i - 1) 0
          else cps.getLastD 0,
        end_date :=
          if i = 0 then (if cps = [] then ld else cps.getD 0 0)
          else if i < cps.length then cps.getD i 0
          else ld,
        duration_days :=
          (if i = 0 then (if cps = [] then ld else cps.getD 0 0)
           else if i < cps.length then cps.getD i 0
           else ld) -
          (if i = 0 then fd
           else if i < cps.length then cps.getD (i - 1) 0
           else cps.getLastD 0),
        mu_mean := mm i, mu_std := ms i, sigma_mean := sm i, sigma_std := ss i,
        annualized_volatility := sm i * Real.sqrt 252 * 100 } := by
  unfold quantify_regime_impacts
  rw [getD_map_range _ _ _ _ (Nat.lt_succ_of_le h)]

/-! ### Claim C1 — the likelihood of the Bayesian model -/

/-- C1 (code_bug evidence): for every series length `n` and every requested
change-point count `K`, the model built by `build_bayesian_change_point_model`
declares `K + 1` per-regime `(mu_i, sigma_i)` prior pairs but its observation
likelihood is the single Normal with parameters `mu_0, sigma_0`, broadcast
over all observations; no observation is modeled with the parameters of a
later regime. -/
theorem likelihood_is_single_regime_zero_pair (n K : ℕ) :
    (build_bayesian_change_point_model true n K).toOption.map
        (fun m => (m.likelihood, m.muPriors.length, m.sigmaPriors.length)) =
      some ({ muIndex := 0, sigmaIndex := 0 }, K + 1, K + 1) := by
  simp [build_bayesian_change_point_model, Except.toOption]

/-! ### Claim C3 — no fail-fast length validation -/

/-- C3 counterexample: a series of 10 log-returns is far shorter than
`2 * 50 * (3 + 1) = 400`, yet `build_bayesian_change_point_model` (with the
sampling backend available) succeeds and returns a model instead of failing
fast with a configuration error. -/
theorem short_series_model_builds_anyway :
    (build_bayesian_change_point_model true 10 3).isOk = true ∧
      10 < 2 * 50 * (3 + 1) := by
  constructor
  · rfl
  · decide

/-- C3 amended: `build_bayesian_change_point_model` performs no series-length
validation at all: whenever the sampling backend is available it returns a
model for every `n` and `K` (its only failure is the backend `ImportError`);
and for a short series (`n ≤ 62`, so `⌊0.8 n⌋ < 50`) with `K ≥ 1` the first
change point's `DiscreteUniform(lower=50, upper=int(0.8*n))` prior is
degenerate (its upper bound is below its lower bound), so failure can only
surface later, during sampling, not as a fail-fast configuration error. -/
theorem build_model_never_validates_length :
    (∀ pa : Bool, ∀ n K : ℕ,
        (build_bayesian_change_point_model pa n K).isOk = pa) ∧
    (∀ n K : ℕ, n ≤ 62 → 1 ≤ K →
        (build_bayesian_change_point_model true n K).toOption.map
            (fun m => m.changePointPriors.headD { lower := CpLowerBound.const 0, upper := 0 }) =
          some { lower := CpLowerBound.const 50, upper := 8 * n / 10 } ∧
        8 * n / 10 < 50) := by
  constructor
  · intro pa n K
    cases pa <;> rfl
  · intro n K hn hK
    constructor
    · cases K with
      | zero => omega
      | succ k =>
        simp [build_bayesian_change_point_model, Except.toOption, List.range_succ_eq_map]
    · omega

/-- Witness for C3's amended theorem at `n = 10`, `K = 3`. -/
theorem build_model_never_validates_length_witness :
    (build_bayesian_change_point_model true 10 3).toOption.map
        (fun m => m.changePointPriors.headD { lower := CpLowerBound.const 0, upper := 0 }) =
      some { lower := CpLowerBound.const 50, upper := 8 * 10 / 10 } ∧
    8 * 10 / 10 < 50 :=
  build_model_never_validates_length.2 10 3 (by decide) (by decide)

/-! ### Claim C4 — empty or absent event catalog -/

/-- C4 counterexample: with a non-empty change-point list but an absent
(`None`) event catalog, `associate_with_events` returns `None` — no
association list at all — contrary to the claim that it returns one entry per
change point with an empty event list. -/
theorem associate_absent_catalog_returns_none :
    associate_with_events (some [{ mean_index := 0, mean_date := 0 }]) none 30 = none :=
  rfl

/-- C4 amended: only a *present but empty* event catalog yields one
association entry per change point, each with an empty event list; an absent
(`None`) catalog — like absent change points — makes `associate_with_events`
return `None` rather than a list. -/
theorem associate_empty_catalog_spec :
    (∀ (cps : List ChangePointSummary) (w : ℕ),
        associate_with_events (some cps) (some []) w =
          some (cps.map fun cp =>
            { change_point_date := cp.mean_date,
              change_point_index := cp.mean_index,
              associated_events := [] })) ∧
    (∀ (cps : Option (List ChangePointSummary)) (w : ℕ),
        associate_with_events cps none w = none) := by
  constructor
  · intro cps w
    simp [associate_with_events, associatedEventsFor, sortByKey]
  · intro cps w
    cases cps <;> rfl

/-! ### Claim C2 — regimes partition the series -/

/-- C2: for every non-empty ordered list of change-point dates, the regimes
produced by `quantify_regime_impacts` are contiguous and jointly cover the
whole return series: there are `cps.length + 1` regimes, the first regime
starts at the series start, the last regime ends at the series end, and each
regime's `end_date` equals the next regime's `start_date`. -/
theorem quantify_regimes_partition (mm ms sm ss : ℕ → ℝ) (fd ld : ℤ)
    (cps : List ℤ) (hne : cps ≠ []) (_hsorted : cps.Pairwise (· ≤ ·)) :
    (quantify_regime_impacts mm ms sm ss fd ld cps).length = cps.length + 1 ∧
    ((quantify_regime_impacts mm ms sm ss fd ld cps).getD 0 defaultRegime).start_date = fd ∧
    ((quantify_regime_impacts mm ms sm ss fd ld cps).getD cps.length defaultRegime).end_date = ld ∧
    ∀ i : ℕ, i < cps.length →
      ((quantify_regime_impacts mm ms sm ss fd ld cps).getD i defaultRegime).end_date =
        ((quantify_regime_impacts mm ms sm ss fd ld cps).getD (i + 1) defaultRegime).start_date := by
  have hK : 0 < cps.length := List.length_pos.2 hne
  refine ⟨?_, ?_, ?_, ?_⟩
  · simp [quantify_regime_impacts]
  · rw [quantify_regime_impacts_getD mm ms sm ss fd ld cps (Nat.zero_le _)]
    simp
  · rw [quantify_regime_impacts_getD mm ms sm ss fd ld cps (le_refl _)]
    have h0 : cps.length ≠ 0 := Nat.pos_iff_ne_zero.1 hK
    simp [h0]
  · intro i hi
    rw [quantify_regime_impacts_getD mm ms sm ss fd ld cps (le_of_lt hi),
      quantify_regime_impacts_getD mm ms sm ss fd ld cps (Nat.succ_le_of_lt hi)]
    have hend : (if i = 0 then (if cps = [] then ld else cps.getD 0 0)
        else if i < cps.length then cps.getD i 0 else ld) = cps.getD i 0 := by
      by_cases h0 : i = 0
      · subst h0; simp [hne]
      · simp [h0, hi]
    have hstart : (if i + 1 = 0 then fd
        else if i + 1 < cps.length then cps.getD (i + 1 - 1) 0
        else cps.getLastD 0) = cps.getD i 0 := by
      by_cases hlt : i + 1 < cps.length
      · rw [if_neg (Nat.succ_ne_zero i), if_pos hlt, Nat.add_sub_cancel]
      · rw [if_neg (Nat.succ_ne_zero i), if_neg hlt, getLastD_eq_getD]
        congr 1
        omega
    simp only [hend, hstart]

/-- Witness for C2 at `cps = [30]`, `fd = 0`, `ld = 100`. -/
theorem quantify_regimes_partition_witness :
    (quantify_regime_impacts (fun _ => 0) (fun _ => 0) (fun _ => 0) (fun _ => 0)
        0 100 [30]).length = 2 ∧
    ((quantify_regime_impacts (fun _ => 0) (fun _ => 0) (fun _ => 0) (fun _ => 0)
        0 100 [30]).getD 0 defaultRegime).start_date = 0 ∧
    ((quantify_regime_impacts (fun _ => 0) (fun _ => 0) (fun _ => 0) (fun _ => 0)
        0 100 [30]).getD 1 defaultRegime).end_date = 100 ∧
    ((quantify_regime_impacts (fun _ => 0) (fun _ => 0) (fun _ => 0) (fun _ => 0)
        0 100 [30]).getD 0 defaultRegime).end_date =
      ((quantify_regime_impacts (fun _ => 0) (fun _ => 0) (fun _ => 0) (fun _ => 0)
        0 100 [30]).getD 1 defaultRegime).start_date := by
  have h := quantify_regimes_partition (fun _ => 0) (fun _ => 0) (fun _ => 0) (fun _ => 0)
    0 100 [30] (by simp) (by simp)
  exact ⟨h.1, h.2.1, h.2.2.1, h.2.2.2 0 (by norm_num)⟩

/-! ### Claim C6 — annualized volatility -/

/-- C6: every regime reported by `quantify_regime_impacts` has
`annualized_volatility = sigma_mean * sqrt(252) * 100`, and this quantity is
strictly monotonically increasing in the regime's return standard deviation
with everything else fixed. -/
theorem annualized_volatility_spec :
    (∀ (mm ms sm ss : ℕ → ℝ) (fd ld : ℤ) (cps : List ℤ) (i : ℕ),
        ((quantify_regime_impacts mm ms sm ss fd ld cps).getD i defaultRegime).annualized_volatility =
          ((quantify_regime_impacts mm ms sm ss fd ld cps).getD i defaultRegime).sigma_mean *
            Real.sqrt 252 * 100) ∧
    (∀ s t : ℝ, s < t → s * Real.sqrt 252 * 100 < t * Real.sqrt 252 * 100) := by
  constructor
  · intro mm ms sm ss fd ld cps i
    by_cases h : i ≤ cps.length
    · rw [quantify_regime_impacts_getD mm ms sm ss fd ld cps h]
    · unfold quantify_regime_impacts
      rw [getD_map_range_ge _ _ _ _ (by omega)]
      simp [defaultRegime]
  · intro s t hst
    have hsqrt : (0:ℝ) < Real.sqrt 252 := Real.sqrt_pos.2 (by norm_num)
    have h1 : s * Real.sqrt 252 < t * Real.sqrt 252 :=
      mul_lt_mul_of_pos_right hst hsqrt
    exact mul_lt_mul_of_pos_right h1 (by norm_num)

/-- Witness for C6's monotonicity at `s = 0`, `t = 1`. -/
theorem annualized_volatility_spec_witness :
    (0:ℝ) * Real.sqrt 252 * 100 < 1 * Real.sqrt 252 * 100 :=
  annualized_volatility_spec.2 0 1 (by norm_num)

/-! ### Claim C5 — symmetric window and stable proximity sort -/

/-- C5: for every change point, event catalog and window, the per-change-point
event list built by `associate_with_events`
(i) contains the record of every catalog event whose date is within
`window_days` of the change point (inclusive — so exactly `window_days`
before or after is included),
(ii) contains only records at distance at most `window_days` (so one day
beyond the window on either side is excluded),
(iii) is sorted ascending by absolute day-distance, and
(iv) is stable: for every distance, its records at that distance appear in the
original catalog order. -/
theorem associated_events_spec (w : ℕ) (cpd : ℤ) (events : List OilEvent) :
    (∀ e ∈ events, (cpd - e.date).natAbs ≤ w →
        toAssociatedEvent cpd e ∈ associatedEventsFor w cpd events) ∧
    (∀ a ∈ associatedEventsFor w cpd events, a.days_from_cp ≤ w) ∧
    (associatedEventsFor w cpd events).Pairwise
      (fun a b => a.days_from_cp ≤ b.days_from_cp) ∧
    (∀ d : ℕ,
      (associatedEventsFor w cpd events).filter (fun a => decide (a.days_from_cp = d)) =
        ((events.filter fun e => (cpd - e.date).natAbs ≤ w).map
            (toAssociatedEvent cpd)).filter (fun a => decide (a.days_from_cp = d))) := by
  refine ⟨?_, ?_, ?_, ?_⟩
  · intro e he hw
    have hperm := perm_sortByKey (fun a : AssociatedEvent => a.days_from_cp)
      ((events.filter fun e => (cpd - e.date).natAbs ≤ w).map (toAssociatedEvent cpd))
    rw [associatedEventsFor, hperm.mem_iff]
    exact List.mem_map_of_mem _ (List.mem_filter.2 ⟨he, by simpa using hw⟩)
  · intro a ha
    have hperm := perm_sortByKey (fun a : AssociatedEvent => a.days_from_cp)
      ((events.filter fun e => (cpd - e.date).natAbs ≤ w).map (toAssociatedEvent cpd))
    rw [associatedEventsFor, hperm.mem_iff] at ha
    obtain ⟨e, he, rfl⟩ := List.mem_map.1 ha
    have := (List.mem_filter.1 he).2
    simpa [toAssociatedEvent] using this
  · exact pairwise_sortByKey _ _
  · intro d
    exact filter_sortByKey _ d _


/-- Witness for C5 at window 30, change point date 0 and a three-event
catalog: both events exactly at the window edges are included, the list is
sorted and stable, and (by clause (ii), instantiated) every included record is
within the window, so the distance-31 event is excluded. -/
theorem associated_events_spec_witness :
    (toAssociatedEvent 0 eventAtMinusWindow ∈
      associatedEventsFor 30 0 [eventAtMinusWindow, eventAtPlusWindow, eventBeyondWindow]) ∧
    (toAssociatedEvent 0 eventAtPlusWindow ∈
      associatedEventsFor 30 0 [eventAtMinusWindow, eventAtPlusWindow, eventBeyondWindow]) ∧
    (∀ a ∈ associatedEventsFor 30 0 [eventAtMinusWindow, eventAtPlusWindow, eventBeyondWindow],
      a.days_from_cp ≤ 30) ∧
    (associatedEventsFor 30 0 [eventAtMinusWindow, eventAtPlusWindow, eventBeyondWindow]).Pairwise
      (fun a b => a.days_from_cp ≤ b.days_from_cp) := by
  have h := associated_events_spec 30 0 [eventAtMinusWindow, eventAtPlusWindow, eventBeyondWindow]
  exact ⟨h.1 eventAtMinusWindow (by decide) (by decide),
    h.1 eventAtPlusWindow (by decide) (by decide), h.2.1, h.2.2.1⟩

/-! ### Claim C7 — preprocessing: sortedness, dropping, and (no) deduplication -/

/-- C7 counterexample: two distinct valid rows with the same parsed date both
survive preprocessing — the output of `preprocess_data` is not deduplicated by
date. -/
theorem preprocess_keeps_duplicate_dates :
    ¬ ((preprocess_data (fun _ => some 0) (fun _ => some 0)
        [("a", "x"), ("b", "y")]).map Prod.fst).Nodup := by
  decide

/-- C7 amended: the output of `preprocess_data` is sorted ascending
(non-strictly) by date, and exactly the rows whose date fails to parse or
whose price fails to coerce are dropped: the output is a permutation of the
parseable rows.  Rows with duplicate dates are all retained — there is no
deduplication step. -/
theorem preprocess_data_spec (pdate : String → Option ℤ) (pprice : String → Option ℚ)
    (rows : List (String × String)) :
    (preprocess_data pdate pprice rows).Pairwise (fun a b => a.1 ≤ b.1) ∧
    List.Perm (preprocess_data pdate pprice rows)
      (rows.filterMap fun r => (pdate r.1).bind fun d => (pprice r.2).map fun p => (d, p)) := by
  constructor
  · refine List.Pairwise.filterMap _ ?_
      (pairwise_sortByKey (fun x : ℤ × String => x.1)
        (rows.filterMap fun r => (pdate r.1).map fun d => (d, r.2)))
    intro a a' hle b hb b' hb'
    obtain ⟨p, _, rfl⟩ := Option.map_eq_some'.1 hb
    obtain ⟨p', _, rfl⟩ := Option.map_eq_some'.1 hb'
    exact hle
  · have h1 : List.Perm
        (sortByKey (fun x : ℤ × String => x.1)
          (rows.filterMap fun r => (pdate r.1).map fun d => (d, r.2)))
        (rows.filterMap fun r => (pdate r.1).map fun d => (d, r.2)) :=
      perm_sortByKey _ _
    have h2 := h1.filterMap (fun x : ℤ × String => (pprice x.2).map fun p => (x.1, p))
    refine h2.trans ?_
    rw [List.filterMap_filterMap]
    have hfun : (fun r : String × String =>
        ((pdate r.1).map fun d => (d, r.2)).bind
          fun x : ℤ × String => (pprice x.2).map fun p => (x.1, p)) =
        fun r : String × String => (pdate r.1).bind fun d => (pprice r.2).map fun p => (d, p) := by
      funext r
      cases pdate r.1 <;> rfl
    rw [hfun]

/-! ### Claim C8 — Strategy B hands raw break lists to callers -/

/-- C8 counterexample: with `ruptures`-style predictors that report one break
at 3 (resp. two breaks at 2 and 4) followed by the mandatory terminal
end-of-series break, `change_point_analysis` on a 5-point series returns the
lists with the terminal break (5, the end of the series) still present:
nothing is excluded from the value handed to callers. -/
theorem change_point_analysis_keeps_terminal_break :
    change_point_analysis true (fun l => [3, l.length]) (fun l => [2, 4, l.length])
        [(0:ℝ), 0, 0, 0, 0] = some ([3, 5], [2, 4, 5]) ∧
    5 ∈ ([3, 5] : List ℕ) := by
  constructor
  · rfl
  · decide

/-- C8 amended: `change_point_analysis` returns the two predictors' raw break
lists unchanged — no exclusion of degenerate breaks happens on the returned
value; only the printed/plotted lists (`[:-1]`) drop the final (end-of-series)
break, which therefore remains in the result handed to callers. -/
theorem change_point_analysis_returns_raw (pelt binseg : List ℝ → List ℕ)
    (series : List ℝ) (h : pelt series ≠ []) :
    change_point_analysis true pelt binseg series = some (pelt series, binseg series) ∧
    plottedChangePoints (pelt series) ++ [(pelt series).getLast h] = pelt series :=
  ⟨rfl, List.dropLast_append_getLast h⟩

/-- Witness for C8's amended theorem at a concrete predictor and series. -/
theorem change_point_analysis_returns_raw_witness :
    change_point_analysis true (fun l => [1, l.length]) (fun _ => []) [(0:ℝ), 0, 0] =
      some ([1, 3], []) := by
  simpa using (change_point_analysis_returns_raw (fun l => [1, l.length]) (fun _ => [])
    [(0:ℝ), 0, 0] (by simp)).1

/-! ### Claim C9 — log-return series -/

/-- C9: for a cleaned price series of `n` positive prices, the derived
log-return series has exactly `n - 1` elements and its `i`-th element (0-based
in the return series, i.e. the return at original position `i + 1`) is
`ln(price[i+1] / price[i])`. -/
theorem log_returns_spec (prices : List ℝ) (hpos : ∀ p ∈ prices, 0 < p) :
    (logReturnsOf prices).length = prices.length - 1 ∧
    ∀ i : ℕ, i + 1 < prices.length →
      (logReturnsOf prices).getD i 0 =
        Real.log (prices.getD (i + 1) 1 / prices.getD i 1) := by
  induction prices with
  | nil => exact ⟨rfl, fun i hi => absurd hi (by simp)⟩
  | cons a tail ih =>
    cases tail with
    | nil => exact ⟨rfl, fun i hi => absurd hi (by simp)⟩
    | cons b rest =>
      have hpos' : ∀ p ∈ b :: rest, 0 < p := fun p hp =>
        hpos p (List.mem_cons_of_mem a hp)
      have ihr := ih hpos'
      constructor
      · have := ihr.1
        simp only [logReturnsOf, List.length_cons] at this ⊢
        omega
      · intro i hi
        cases i with
        | zero => simp [logReturnsOf]
        | succ j =>
          have hj : j + 1 < (b :: rest).length := by
            simpa [Nat.succ_lt_succ_iff] using hi
          simpa [logReturnsOf, List.getD_cons_succ] using ihr.2 j hj

/-- Witness for C9 at the price series `[1, 2]`. -/
theorem log_returns_spec_witness :
    (logReturnsOf [(1:ℝ), 2]).length = 1 ∧
    (logReturnsOf [(1:ℝ), 2]).getD 0 0 = Real.log ((2:ℝ) / 1) := by
  have h := log_returns_spec [(1:ℝ), 2] (by intro p hp; fin_cases hp <;> norm_num)
  exact ⟨h.1, by simpa using h.2 0 (by norm_num)⟩

/-! ### Claim C10 — stationarity tester and exceptions -/

/-- C10 counterexample: when the unguarded `adfuller` call fails (as it does
on a constant series, where statsmodels raises "Invalid input, x is
constant"), `test_stationarity` propagates the exception instead of reporting
an inconclusive result — the pipeline crashes. -/
theorem adf_exception_propagates :
    test_stationarity (Except.error "Invalid input, x is constant")
        (Except.ok { statistic := 0, pvalue := 1 }) =
      Except.error "Invalid input, x is constant" :=
  rfl

/-- C10 amended: only the KPSS computation is guarded.  `test_stationarity`
returns normally if and only if the ADF computation succeeds; a KPSS failure
is caught and reported as "could not be performed" (`none`), while an ADF
failure propagates as an exception. -/
theorem test_stationarity_guards_only_kpss :
    (∀ (adfOutcome : Except String AdfOutcome) (kpssOutcome : Except String KpssOutcome),
        (test_stationarity adfOutcome kpssOutcome).isOk = adfOutcome.isOk) ∧
    (∀ (a : AdfOutcome) (e : String),
        test_stationarity (Except.ok a) (Except.error e) =
          Except.ok
            { adf_statistic := a.statistic, adf_pvalue := a.pvalue,
              adf_stationary := decide (a.pvalue ≤ 5/100), kpss_result := none }) ∧
    (∀ (e : String) (kpssOutcome : Except String KpssOutcome),
        test_stationarity (Except.error e) kpssOutcome = Except.error e) := by
  refine ⟨?_, ?_, ?_⟩
  · intro adfOutcome kpssOutcome
    cases adfOutcome <;> rfl
  · intro a e
    rfl
  · intro e kpssOutcome
    rfl

end BrentOil
